import Mathlib

/-! Verification development for the project-assessment service.

The definitions below are a shallow embedding of the repository sources:

* `src/app/services/project_doc.py`, `GeminiDocEvaluator.evaluate`:
  the upload / poll / retry / cleanup control flow is modelled as a pure
  function over an oracle `Env` that fixes the outcomes of the external
  calls (file upload, status refresh, content generation, remote delete)
  and the values returned by the event-loop clock.  The function produces
  a `Trace` recording the externally visible effects together with the
  returned value or raised error message.  The `while` polling loop gets
  an explicit fuel; running out of fuel yields `result = none` (the
  Python loop would still be spinning, so the `finally` block has not run
  either).  The event-loop float timestamps are modelled at integer
  granularity (`ℤ`): the code only compares a timestamp difference with
  the integer budget `30`, and the sleep durations are integer
  arithmetic in the source (`retry_delay = 2`,
  `retry_delay * (attempt + 1)`).

* `src/app/api/v1/endpoints/eval.py`, `evaluate_document`:
  the extension allow-list, the required-field / empty-file / size
  checks in source order, the temp-file creation point, the score
  extraction (the first match of the regular expression
  `Overall Score:\s*(\d+)/` scanned over the evaluation text) and the
  status mapping applied to evaluator failures.
-/

namespace ProjectAssessment

/-- A remote file handle as returned by the provider.  The code probes
`state` and `name` duck-typed via `hasattr`, hence both are `Option`s. -/
structure Handle where
  name : Option String
  state : Option String
deriving DecidableEq, Repr

/-- Oracle for the external world seen by one `evaluate` call: whether the
local path exists, the outcome of the k-th upload / k-th status refresh /
k-th remote delete, the single generation call, and the value of the n-th
`time()` call on the event loop. For the generation call, `.ok none`
models a falsy response or one without a `text` attribute. -/
structure Env where
  fileExists : Bool
  uploads : Nat → Except String Handle
  gets : Nat → Except String Handle
  clock : Nat → ℤ
  generate : Except String (Option String)
  deleteOk : Nat → Bool

/-- Effects accumulated during one `evaluate` call.  `u`, `g`, `t` count
the upload / status-refresh / `time()` calls made so far (doubling as the
next oracle index).  `uploaded` lists every handle a successful upload
call returned, `deletes` the name passed to every remote delete call, in
order.  `timeouts` and `notActives` count how often the processing
timeout, resp. the non-ACTIVE-state error, was raised internally. -/
structure St where
  u : Nat
  g : Nat
  t : Nat
  uploaded : List Handle
  pollSleeps : List ℕ
  backoffSleeps : List ℕ
  timeouts : Nat
  notActives : Nat
  genCalls : Nat
  deletes : List String
deriving DecidableEq, Repr

def St.init : St := ⟨0, 0, 0, [], [], [], 0, 0, 0, []⟩

/-- Message of the exception raised at project_doc.py line 64. -/
def timeoutMsg : String := "File processing timed out after 30 seconds"

/-- Python `str()` of the optional state (`str(None) = "None"`). -/
def stateStr : Option String → String
  | none => "None"
  | some s => s

/-- Message of the exception raised at project_doc.py line 74. -/
def notActiveMsg (s : Option String) : String :=
  "File is not in ACTIVE state after upload. State: " ++ stateStr s

inductive PollOut where
  | done (h : Handle)
  | timeout (h : Handle)
  | getErr (h : Handle) (e : String)
  | fuelOut (h : Handle)
deriving Repr

/-- The `while myfile.state == 'PROCESSING'` loop (project_doc.py lines
62-71): check elapsed time against the 30-second budget, sleep the fixed
2-second `retry_delay`, refresh the handle.  A raising refresh leaves
`myfile` at the previous handle.  `start` is the `start_time` sample. -/
def pollLoop (gets : Nat → Except String Handle) (clock : Nat → ℤ) (start : ℤ) :
    Nat → Handle → St → St × PollOut
  | 0, h, st =>
    if h.state = some "PROCESSING" then (st, .fuelOut h) else (st, .done h)
  | fuel + 1, h, st =>
    if h.state = some "PROCESSING" then
      if clock st.t - start > 30 then
        ({ st with t := st.t + 1, timeouts := st.timeouts + 1 }, .timeout h)
      else
        match gets st.g with
        | .error e =>
          ({ st with t := st.t + 1, g := st.g + 1,
                     pollSleeps := st.pollSleeps ++ [2] }, .getErr h e)
        | .ok h2 =>
          pollLoop gets clock start fuel h2
            { st with t := st.t + 1, g := st.g + 1,
                      pollSleeps := st.pollSleeps ++ [2] }
    else (st, .done h)

inductive AttemptOut where
  | broke (h : Handle)
  | failed (m : Option Handle) (e : String)
  | fuelOut (m : Option Handle)
deriving Repr

/-- One iteration of the `for attempt in range(max_retries)` body
(project_doc.py lines 48-76): upload, the `hasattr(myfile, 'state')`
break, `start_time` sampling, the polling loop, the ACTIVE check.
`m0` is the `myfile` binding on entry; it is kept when the upload call
itself throws. `.failed` carries the `myfile` binding at raise time. -/
def attemptOnce (uploads gets : Nat → Except String Handle) (clock : Nat → ℤ)
    (pollFuel : Nat) (m0 : Option Handle) (st : St) : St × AttemptOut :=
  match uploads st.u with
  | .error e => ({ st with u := st.u + 1 }, .failed m0 e)
  | .ok h =>
    match h.state with
    | none => ({ st with u := st.u + 1, uploaded := st.uploaded ++ [h] }, .broke h)
    | some _ =>
      match pollLoop gets clock (clock st.t) pollFuel h
              { st with u := st.u + 1, uploaded := st.uploaded ++ [h], t := st.t + 1 } with
      | (st4, .done h2) =>
        if h2.state = some "ACTIVE" then (st4, .broke h2)
        else ({ st4 with notActives := st4.notActives + 1 },
              .failed (some h2) (notActiveMsg h2.state))
      | (st4, .timeout h2) => (st4, .failed (some h2) timeoutMsg)
      | (st4, .getErr h2 e) => (st4, .failed (some h2) e)
      | (st4, .fuelOut h2) => (st4, .fuelOut (some h2))

/-- `if myfile and hasattr(myfile, 'name'): client.files.delete(...)`:
the guard used both by the last-attempt cleanup (project_doc.py lines
81-88) and by the `finally` block (lines 125-133).  The delete outcome is
swallowed at both sites, so only the issued call is recorded. -/
def deleteIfNamed (m : Option Handle) (st : St) : St :=
  match m with
  | some h =>
    match h.name with
    | some n => { st with deletes := st.deletes ++ [n] }
    | none => st
  | none => st

inductive LoopOut where
  | ok (h : Handle)
  | err (m : Option Handle) (e : String)
  | exhausted (m : Option Handle)
  | diverged (m : Option Handle)
deriving Repr

/-- The retry loop (project_doc.py lines 48-91).  `rem` iterations remain,
`a` is the current `attempt` index (the code tests
`attempt == max_retries - 1`, i.e. `a = 2`), `m` the `myfile` binding.
A failed non-final attempt sleeps `retry_delay * (attempt + 1)` seconds;
a failed final attempt best-effort deletes the current handle and raises
the upload-failure wrapper carrying the last error. -/
def attemptLoop (uploads gets : Nat → Except String Handle) (clock : Nat → ℤ)
    (pollFuel : Nat) : Nat → Nat → Option Handle → St → St × LoopOut
  | 0, _, m, st => (st, .exhausted m)
  | rem + 1, a, m, st =>
    match attemptOnce uploads gets clock pollFuel m st with
    | (st1, .broke h) => (st1, .ok h)
    | (st1, .fuelOut m1) => (st1, .diverged m1)
    | (st1, .failed m1 e) =>
      if a = 2 then
        (deleteIfNamed m1 st1,
         .err m1 ("Failed to upload file after 3 attempts: " ++ e))
      else
        attemptLoop uploads gets clock pollFuel rem (a + 1) m1
          { st1 with backoffSleeps := st1.backoffSleeps ++ [2 * (a + 1)] }

inductive BodyOut where
  | returned (h : Handle) (txt : String)
  | errored (m : Option Handle) (e : String)
  | diverged
deriving Repr

/-- The generation call (project_doc.py lines 103-118): the inner
`generate` wraps its own exception; a falsy response or one without
`text` is rejected afterwards. -/
def genStep (gen : Except String (Option String)) (h : Handle) (st : St) : St × BodyOut :=
  match gen with
  | .error e =>
    ({ st with genCalls := st.genCalls + 1 },
     .errored (some h) ("Content generation failed: " ++ e))
  | .ok none =>
    ({ st with genCalls := st.genCalls + 1 },
     .errored (some h) "Invalid response from Gemini API")
  | .ok (some txt) =>
    ({ st with genCalls := st.genCalls + 1 }, .returned h txt)

/-- Body of the outer `try` (project_doc.py lines 38-118): existence
check, retry loop, dead `if not myfile` guard, generation. -/
def evalBody (fe : Bool) (uploads gets : Nat → Except String Handle) (clock : Nat → ℤ)
    (gen : Except String (Option String)) (path : String) (pollFuel : Nat) :
    St × BodyOut :=
  if fe then
    match attemptLoop uploads gets clock pollFuel 3 0 none St.init with
    | (st, .ok h) => genStep gen h st
    | (st, .err m e) => (st, .errored m e)
    | (st, .exhausted none) =>
      (st, .errored none "File upload failed: No file handle returned")
    | (st, .exhausted (some h)) => genStep gen h st
    | (st, .diverged _) => (st, .diverged)
  else (St.init, .errored none ("File not found: " ++ path))

/-- Result of one `evaluate` call: the accumulated effects and the
outcome.  `result = none` marks poll-fuel exhaustion (the Python loop
would still be running, so neither `except` nor `finally` has run). -/
structure Trace where
  st : St
  result : Option (Except String String)
deriving Repr

/-- `GeminiDocEvaluator.evaluate` (project_doc.py lines 11-133): the
outer `except` wraps any raised exception into
`Evaluation failed: ...`; the `finally` block best-effort deletes the
final `myfile` binding when it has a name.  Delete outcomes never
influence the control flow. -/
def evaluate (fe : Bool) (uploads gets : Nat → Except String Handle) (clock : Nat → ℤ)
    (gen : Except String (Option String)) (path : String) (pollFuel : Nat) : Trace :=
  match evalBody fe uploads gets clock gen path pollFuel with
  | (st, .returned h txt) => ⟨deleteIfNamed (some h) st, some (.ok txt)⟩
  | (st, .errored m e) =>
    ⟨deleteIfNamed m st, some (.error ("Evaluation failed: " ++ e))⟩
  | (st, .diverged) => ⟨st, none⟩

/-- `evaluate` applied to an `Env` oracle. -/
def runEval (env : Env) (path : String) (pollFuel : Nat) : Trace :=
  evaluate env.fileExists env.uploads env.gets env.clock env.generate path pollFuel

/-- Number of issued remote delete calls that fail under the oracle. -/
def deleteFailures (env : Env) (path : String) (pollFuel : Nat) : Nat :=
  ((List.range (runEval env path pollFuel).st.deletes.length).filter
    (fun i => env.deleteOk i = false)).length

/-! ### The request gate, eval.py -/

/-- eval.py lines 15-24. -/
def ALLOWED_EXTENSIONS : List String :=
  [".pdf", ".docx", ".doc", ".txt", ".rtf", ".odt", ".md",
   ".jpg", ".jpeg", ".png", ".webp", ".gif",
   ".mp4", ".webm", ".mov", ".avi", ".mkv",
   ".mp3", ".wav", ".ogg", ".m4a"]

/-- `sorted(ALLOWED_EXTENSIONS)` (Python code-point sort), evaluated. -/
def sortedAllowed : List String :=
  [".avi", ".doc", ".docx", ".gif", ".jpeg", ".jpg", ".m4a", ".md", ".mkv",
   ".mov", ".mp3", ".mp4", ".odt", ".ogg", ".pdf", ".png", ".rtf", ".txt",
   ".wav", ".webm", ".webp"]

/-- Suffix after the last dot: Python `filename.rsplit('.', 1)[1]`
(meaningful when a dot is present). -/
def afterLastDot (l : List Char) : List Char :=
  (l.reverse.takeWhile (fun c => c != '.')).reverse

def lowerChars (l : List Char) : List Char := l.map Char.toLower

/-- `{ext.lstrip('.') for ext in ALLOWED_EXTENSIONS}`. -/
def allowedBare : List (List Char) :=
  ALLOWED_EXTENSIONS.map (fun e => e.data.dropWhile (fun c => c == '.'))

/-- `is_allowed_file` (eval.py lines 26-28). -/
def is_allowed_file (filename : String) : Bool :=
  filename.data.contains '.' &&
    decide (lowerChars (afterLastDot filename.data) ∈ allowedBare)

/-- The JSON `detail` payload of an `HTTPException` raised by the
endpoint (only fields the endpoint ever sets; absent fields are
`none`). -/
structure ErrBody where
  error : String
  message : String
  allowed_types : Option (List String)
  required_fields : Option (List String)
  max_size_mb : Option Nat
  actual_size_mb : Option ℚ
  step : Option String
  deliverable : Option String
deriving DecidableEq, Repr

/-- eval.py lines 47-54. -/
def invalidFileTypeBody : ErrBody :=
  ⟨"invalid_file_type",
   "File type not allowed. Allowed types: " ++ String.intercalate ", " sortedAllowed,
   some sortedAllowed, none, none, none, none, none⟩

/-- eval.py lines 58-65. -/
def missingFieldsBody : ErrBody :=
  ⟨"missing_required_fields",
   "Both \x27step_name\x27 and \x27deliverable_name\x27 are required fields",
   none, some ["step_name", "deliverable_name"], none, none, none, none⟩

/-- eval.py lines 72-78. -/
def emptyFileBody : ErrBody :=
  ⟨"empty_file", "The uploaded file is empty", none, none, none, none, none, none⟩

/-- Round to an integer, ties to even (Python `round` on an exactly
represented value; the float argument is modelled exactly in `ℚ`). -/
def roundHalfEven (x : ℚ) : ℤ :=
  if x - ⌊x⌋ < 1 / 2 then ⌊x⌋
  else if 1 / 2 < x - ⌊x⌋ then ⌊x⌋ + 1
  else if ⌊x⌋ % 2 = 0 then ⌊x⌋ else ⌊x⌋ + 1

/-- Python `round(q, 2)`. -/
def round2 (q : ℚ) : ℚ := (roundHalfEven (q * 100) : ℚ) / 100

/-- eval.py lines 83-91. -/
def fileTooLargeBody (actual : ℚ) : ErrBody :=
  ⟨"file_too_large", "File size exceeds the maximum allowed size of 50MB",
   none, none, some 50, some actual, none, none⟩

/-- `max_file_size = 50 * 1024 * 1024` (eval.py line 81). -/
def MAX_FILE_SIZE : Nat := 50 * 1024 * 1024

/-- The multipart request as the endpoint sees it: `file.filename` and
`file.size` may be absent (`None`). -/
structure UploadReq where
  filename : Option String
  step_name : String
  deliverable_name : String
  size : Option Nat
deriving DecidableEq, Repr

/-- `tempCreated` records whether the `NamedTemporaryFile` was created
before the outcome was decided; `outcome = some (status, body)` models a
raised `HTTPException`, `none` means validation passed. -/
structure GateResult where
  tempCreated : Bool
  outcome : Option (Nat × ErrBody)
deriving DecidableEq, Repr

/-- Python truthiness of `file.filename`. -/
def filenameTruthy : Option String → Bool
  | none => false
  | some s => !(s == "")

/-- The validation prefix of `evaluate_document` (eval.py lines 45-98) in
source order: extension allow-list, required fields, empty file, size
ceiling; the temporary file is created only after all four checks
pass. -/
def validateRequest (r : UploadReq) : GateResult :=
  if !(filenameTruthy r.filename && is_allowed_file (r.filename.getD "")) then
    ⟨false, some (400, invalidFileTypeBody)⟩
  else if r.step_name == "" || r.deliverable_name == "" then
    ⟨false, some (400, missingFieldsBody)⟩
  else
    match r.size with
    | none => ⟨false, some (400, emptyFileBody)⟩
    | some n =>
      if n == 0 then ⟨false, some (400, emptyFileBody)⟩
      else if MAX_FILE_SIZE < n then
        ⟨false, some (400, fileTooLargeBody (round2 ((n : ℚ) / (1024 * 1024))))⟩
      else ⟨true, none⟩

/-! ### Score extraction, eval.py lines 123-133 -/

/-- Python regex `\s` over ASCII text. -/
def pySpace (c : Char) : Bool :=
  c == ' ' || c == '\t' || c == '\n' || c == '\x0b' || c == '\x0c' || c == '\r'

def scorePat : List Char := "Overall Score:".data

/-- Numeric value of a digit string (`float` of the capture is exact for
these magnitudes, so the score is modelled as `Nat`). -/
def digitsVal (l : List Char) : Nat :=
  l.foldl (fun acc c => acc * 10 + (c.toNat - 48)) 0

/-- Match a literal prefix, returning the remainder. -/
def matchLit : List Char → List Char → Option (List Char)
  | [], s => some s
  | _ :: _, [] => none
  | c :: cs, d :: ds => if c = d then matchLit cs ds else none

/-- One anchored match of `Overall Score:\s*(\d+)/`, returning the value
of the capture group.  Greedy `\s*` / `\d+` need no backtracking here
because space, digit and `/` are disjoint character classes. -/
def matchesAt (s : List Char) : Option Nat :=
  match matchLit scorePat s with
  | none => none
  | some r =>
    match (r.dropWhile pySpace).takeWhile Char.isDigit with
    | [] => none
    | d :: ds =>
      match (r.dropWhile pySpace).dropWhile Char.isDigit with
      | '/' :: _ => some (digitsVal (d :: ds))
      | _ => none

/-- `re.search`: the leftmost position with a match wins. -/
def searchScore : List Char → Option Nat
  | [] => none
  | c :: rest =>
    match matchesAt (c :: rest) with
    | some n => some n
    | none => searchScore rest

/-- Score extraction in `evaluate_document` (eval.py lines 123-133):
guarded by the truthiness of `evaluation`; `float(...)` of the captured
digits cannot raise. -/
def extract_score (evaluation : String) : Option Nat :=
  if evaluation == "" then none else searchScore evaluation.data

/-! ### Evaluator-failure mapping and the full endpoint, eval.py -/

/-- Substring occurring at the front (uses `matchLit` below via the
definition order, so it is declared after the score-extraction block). -/
def containsSubChars (needle : List Char) : List Char → Bool
  | [] => (matchLit needle []).isSome
  | c :: rest => (matchLit needle (c :: rest)).isSome || containsSubChars needle rest

/-- Python substring test `needle in hay`. -/
def containsSub (needle hay : String) : Bool := containsSubChars needle.data hay.data

/-- eval.py line 152. -/
def genericEvalErrorMsg : String :=
  "The uploaded file could not be processed. Please try again with a different file."

/-- The substring test at eval.py line 150. -/
def isFileStateErr (m : String) : Bool :=
  containsSub "FAILED_PRECONDITION" m || containsSub "not in an ACTIVE state" m

/-- Status chosen for an evaluator failure (eval.py lines 145-154). -/
def evalFailureStatus (m : String) : Nat := if isFileStateErr m then 400 else 500

/-- Error body for an evaluator failure (eval.py lines 154-162). -/
def evalFailureBody (step deliv m : String) : ErrBody :=
  ⟨"evaluation_failed",
   "Evaluation failed: " ++ (if isFileStateErr m then genericEvalErrorMsg else m),
   none, none, none, none, some step, some deliv⟩

/-- The 200 response model (schemas/eval.py `EvaluationResponse`). -/
structure EvalResponse where
  evaluation : String
  step_name : String
  deliverable_name : String
  score : Option Nat
deriving DecidableEq, Repr

inductive EndpointOut where
  | ok (resp : EvalResponse)
  | err (status : Nat) (body : ErrBody)
deriving DecidableEq, Repr

/-- `evaluate_document` end to end: validation, then the evaluator run,
then either the response with the extracted score or the mapped error.
`none` propagates evaluator divergence (poll-fuel exhaustion). -/
def evaluate_document (r : UploadReq) (env : Env) (tmpPath : String) (pollFuel : Nat) :
    Option EndpointOut :=
  match (validateRequest r).outcome with
  | some (s, b) => some (.err s b)
  | none =>
    match (runEval env tmpPath pollFuel).result with
    | none => none
    | some (.ok txt) =>
      some (.ok ⟨txt, r.step_name, r.deliverable_name, extract_score txt⟩)
    | some (.error m) =>
      some (.err (evalFailureStatus m) (evalFailureBody r.step_name r.deliverable_name m))

/-- The literal occurrence scanned for in the score-extraction claims. -/
def pat23 : List Char := "Overall Score: 23/30".data

/-- The message `evaluate` surfaces when the final upload attempt ends in
a terminal FAILED state. -/
def msgNA : String :=
  "Evaluation failed: Failed to upload file after 3 attempts: File is not in ACTIVE state after upload. State: FAILED"

/-! ### Concrete oracles used in the theorems below -/

def handleProc : Handle := ⟨some "files/a1", some "PROCESSING"⟩

def handleActive : Handle := ⟨some "files/a2", some "ACTIVE"⟩

/-- A run in which the first upload succeeds but its processing poll times
out (the clock jumps past the 30-second budget), the retried upload
succeeds immediately in ACTIVE state and the generation call succeeds. -/
def envLeak : Env :=
  ⟨true,
   fun k => if k = 0 then .ok handleProc else if k = 1 then .ok handleActive
            else .error "unreachable",
   fun _ => .error "unreachable",
   fun n => if n = 1 then 31 else 0,
   .ok (some "EVAL TEXT"),
   fun _ => true⟩

/-- A run in which the first two upload calls throw and the third returns
a PROCESSING handle whose poll times out on the final attempt. -/
def envTimeoutLast : Env :=
  ⟨true,
   fun k => if k = 2 then .ok ⟨some "files/t", some "PROCESSING"⟩
            else .error "netfail",
   fun _ => .error "unreachable",
   fun n => if n = 1 then 31 else 0,
   .ok (some "unused"),
   fun _ => true⟩

/-- A run in which the first two upload calls throw and the third returns
a handle stuck in the terminal FAILED state on the final attempt. -/
def envNotActive : Env :=
  ⟨true,
   fun k => if k = 2 then .ok ⟨some "files/n", some "FAILED"⟩
            else .error "netfail",
   fun _ => .error "unreachable",
   fun _ => 0,
   .ok (some "unused"),
   fun _ => true⟩

/-- A run with one transient upload failure, then a successful ACTIVE
upload and a successful generation. -/
def envRetryOk : Env :=
  ⟨true,
   fun k => if k = 1 then .ok ⟨some "files/w", some "ACTIVE"⟩
            else .error "transient",
   fun _ => .error "unreachable",
   fun _ => 0,
   .ok (some "X"),
   fun _ => true⟩

/-- A run in which every upload call throws. -/
def envAllFail : Env :=
  ⟨true,
   fun _ => .error "e",
   fun _ => .error "unreachable",
   fun _ => 0,
   .ok (some "unused"),
   fun _ => true⟩

/-- A run with an immediate ACTIVE upload and a throwing generation call. -/
def envGenFail : Env :=
  ⟨true,
   fun k => if k = 0 then .ok ⟨some "files/g", some "ACTIVE"⟩
            else .error "unreachable",
   fun _ => .error "unreachable",
   fun _ => 0,
   .error "boom",
   fun _ => true⟩

/-- A run whose local file does not exist. -/
def envNoFile : Env :=
  ⟨false, fun _ => .error "unused", fun _ => .error "unused", fun _ => 0,
   .ok (some "unused"), fun _ => true⟩

/-- A request that passes all four gate validations. -/
def reqOK : UploadReq := ⟨some "a.pdf", "Step", "Deliv", some 1000⟩

/-! ### Step-equation lemmas for the evaluator state machine -/

theorem pollLoop_not_processing (gets : Nat → Except String Handle) (clock : Nat → ℤ)
    (start : ℤ) (fuel : Nat) (h : Handle) (st : St)
    (hst : ¬ h.state = some "PROCESSING") :
    pollLoop gets clock start fuel h st = (st, .done h) := by
  cases fuel <;> simp only [pollLoop, if_neg hst]

theorem pollLoop_timeout_step (gets : Nat → Except String Handle) (clock : Nat → ℤ)
    (start : ℤ) (fuel : Nat) (h : Handle) (st : St)
    (hst : h.state = some "PROCESSING") (htime : clock st.t - start > 30) :
    pollLoop gets clock start (fuel + 1) h st
      = ({ st with t := st.t + 1, timeouts := st.timeouts + 1 }, .timeout h) := by
  simp only [pollLoop, if_pos hst, if_pos htime]

theorem attemptOnce_upload_err (uploads gets : Nat → Except String Handle)
    (clock : Nat → ℤ) (pollFuel : Nat) (m0 : Option Handle) (st : St) (e : String)
    (hup : uploads st.u = .error e) :
    attemptOnce uploads gets clock pollFuel m0 st
      = ({ st with u := st.u + 1 }, .failed m0 e) := by
  simp only [attemptOnce, hup]

theorem attemptOnce_stateless (uploads gets : Nat → Except String Handle)
    (clock : Nat → ℤ) (pollFuel : Nat) (m0 : Option Handle) (st : St) (h : Handle)
    (hup : uploads st.u = .ok h) (hst : h.state = none) :
    attemptOnce uploads gets clock pollFuel m0 st
      = ({ st with u := st.u + 1, uploaded := st.uploaded ++ [h] }, .broke h) := by
  simp only [attemptOnce, hup, hst]

theorem attemptOnce_done_active (uploads gets : Nat → Except String Handle)
    (clock : Nat → ℤ) (pollFuel : Nat) (m0 : Option Handle) (st st4 : St)
    (h h2 : Handle) (s : String)
    (hup : uploads st.u = .ok h) (hst : h.state = some s)
    (hp : pollLoop gets clock (clock st.t) pollFuel h
            { st with u := st.u + 1, uploaded := st.uploaded ++ [h], t := st.t + 1 }
          = (st4, .done h2))
    (hact : h2.state = some "ACTIVE") :
    attemptOnce uploads gets clock pollFuel m0 st = (st4, .broke h2) := by
  simp only [attemptOnce, hup, hst, hp, hact, reduceIte]

theorem attemptOnce_done_not_active (uploads gets : Nat → Except String Handle)
    (clock : Nat → ℤ) (pollFuel : Nat) (m0 : Option Handle) (st st4 : St)
    (h h2 : Handle) (s : String)
    (hup : uploads st.u = .ok h) (hst : h.state = some s)
    (hp : pollLoop gets clock (clock st.t) pollFuel h
            { st with u := st.u + 1, uploaded := st.uploaded ++ [h], t := st.t + 1 }
          = (st4, .done h2))
    (hact : ¬ h2.state = some "ACTIVE") :
    attemptOnce uploads gets clock pollFuel m0 st
      = ({ st4 with notActives := st4.notActives + 1 },
         .failed (some h2) (notActiveMsg h2.state)) := by
  simp only [attemptOnce, hup, hst, hp, if_neg hact]

theorem attemptOnce_timeout (uploads gets : Nat → Except String Handle)
    (clock : Nat → ℤ) (pollFuel : Nat) (m0 : Option Handle) (st st4 : St)
    (h h2 : Handle) (s : String)
    (hup : uploads st.u = .ok h) (hst : h.state = some s)
    (hp : pollLoop gets clock (clock st.t) pollFuel h
            { st with u := st.u + 1, uploaded := st.uploaded ++ [h], t := st.t + 1 }
          = (st4, .timeout h2)) :
    attemptOnce uploads gets clock pollFuel m0 st
      = (st4, .failed (some h2) timeoutMsg) := by
  simp only [attemptOnce, hup, hst, hp]

theorem attemptOnce_getErr (uploads gets : Nat → Except String Handle)
    (clock : Nat → ℤ) (pollFuel : Nat) (m0 : Option Handle) (st st4 : St)
    (h h2 : Handle) (s e : String)
    (hup : uploads st.u = .ok h) (hst : h.state = some s)
    (hp : pollLoop gets clock (clock st.t) pollFuel h
            { st with u := st.u + 1, uploaded := st.uploaded ++ [h], t := st.t + 1 }
          = (st4, .getErr h2 e)) :
    attemptOnce uploads gets clock pollFuel m0 st
      = (st4, .failed (some h2) e) := by
  simp only [attemptOnce, hup, hst, hp]

theorem attemptOnce_fuelOut (uploads gets : Nat → Except String Handle)
    (clock : Nat → ℤ) (pollFuel : Nat) (m0 : Option Handle) (st st4 : St)
    (h h2 : Handle) (s : String)
    (hup : uploads st.u = .ok h) (hst : h.state = some s)
    (hp : pollLoop gets clock (clock st.t) pollFuel h
            { st with u := st.u + 1, uploaded := st.uploaded ++ [h], t := st.t + 1 }
          = (st4, .fuelOut h2)) :
    attemptOnce uploads gets clock pollFuel m0 st
      = (st4, .fuelOut (some h2)) := by
  simp only [attemptOnce, hup, hst, hp]

theorem attemptLoop_step_broke (uploads gets : Nat → Except String Handle)
    (clock : Nat → ℤ) (pollFuel rem a : Nat) (m : Option Handle) (st st1 : St)
    (h : Handle)
    (hao : attemptOnce uploads gets clock pollFuel m st = (st1, .broke h)) :
    attemptLoop uploads gets clock pollFuel (rem + 1) a m st = (st1, .ok h) := by
  simp only [attemptLoop, hao]

theorem attemptLoop_step_fuelOut (uploads gets : Nat → Except String Handle)
    (clock : Nat → ℤ) (pollFuel rem a : Nat) (m m1 : Option Handle) (st st1 : St)
    (hao : attemptOnce uploads gets clock pollFuel m st = (st1, .fuelOut m1)) :
    attemptLoop uploads gets clock pollFuel (rem + 1) a m st = (st1, .diverged m1) := by
  simp only [attemptLoop, hao]

theorem attemptLoop_step_failed_last (uploads gets : Nat → Except String Handle)
    (clock : Nat → ℤ) (pollFuel rem : Nat) (m m1 : Option Handle) (st st1 : St)
    (e : String)
    (hao : attemptOnce uploads gets clock pollFuel m st = (st1, .failed m1 e)) :
    attemptLoop uploads gets clock pollFuel (rem + 1) 2 m st
      = (deleteIfNamed m1 st1,
         .err m1 ("Failed to upload file after 3 attempts: " ++ e)) := by
  simp only [attemptLoop, hao, reduceIte]

theorem attemptLoop_step_failed_retry (uploads gets : Nat → Except String Handle)
    (clock : Nat → ℤ) (pollFuel rem a : Nat) (m m1 : Option Handle) (st st1 : St)
    (e : String) (ha : ¬ a = 2)
    (hao : attemptOnce uploads gets clock pollFuel m st = (st1, .failed m1 e)) :
    attemptLoop uploads gets clock pollFuel (rem + 1) a m st
      = attemptLoop uploads gets clock pollFuel rem (a + 1) m1
          { st1 with backoffSleeps := st1.backoffSleeps ++ [2 * (a + 1)] } := by
  simp only [attemptLoop, hao, if_neg ha]

theorem evalBody_noFile (uploads gets : Nat → Except String Handle)
    (clock : Nat → ℤ) (gen : Except String (Option String)) (path : String)
    (pollFuel : Nat) :
    evalBody false uploads gets clock gen path pollFuel
      = (St.init, .errored none ("File not found: " ++ path)) := by
  simp only [evalBody, Bool.false_eq_true, if_false]

theorem evalBody_loopOk (uploads gets : Nat → Except String Handle)
    (clock : Nat → ℤ) (gen : Except String (Option String)) (path : String)
    (pollFuel : Nat) (st : St) (h : Handle)
    (hal : attemptLoop uploads gets clock pollFuel 3 0 none St.init = (st, .ok h)) :
    evalBody true uploads gets clock gen path pollFuel = genStep gen h st := by
  simp only [evalBody, hal, if_true]

theorem evalBody_loopErr (uploads gets : Nat → Except String Handle)
    (clock : Nat → ℤ) (gen : Except String (Option String)) (path : String)
    (pollFuel : Nat) (st : St) (m : Option Handle) (e : String)
    (hal : attemptLoop uploads gets clock pollFuel 3 0 none St.init
           = (st, .err m e)) :
    evalBody true uploads gets clock gen path pollFuel = (st, .errored m e) := by
  simp only [evalBody, hal, if_true]

theorem evaluate_returned (fe : Bool) (uploads gets : Nat → Except String Handle)
    (clock : Nat → ℤ) (gen : Except String (Option String)) (path : String)
    (pollFuel : Nat) (st : St) (h : Handle) (txt : String)
    (hb : evalBody fe uploads gets clock gen path pollFuel = (st, .returned h txt)) :
    evaluate fe uploads gets clock gen path pollFuel
      = ⟨deleteIfNamed (some h) st, some (.ok txt)⟩ := by
  simp only [evaluate, hb]

theorem evaluate_errored (fe : Bool) (uploads gets : Nat → Except String Handle)
    (clock : Nat → ℤ) (gen : Except String (Option String)) (path : String)
    (pollFuel : Nat) (st : St) (m : Option Handle) (e : String)
    (hb : evalBody fe uploads gets clock gen path pollFuel = (st, .errored m e)) :
    evaluate fe uploads gets clock gen path pollFuel
      = ⟨deleteIfNamed m st, some (.error ("Evaluation failed: " ++ e))⟩ := by
  simp only [evaluate, hb]

/-! ### Invariant lemmas about the evaluator state machine -/

theorem deleteIfNamed_invar (m : Option Handle) (st : St) :
    (deleteIfNamed m st).u = st.u ∧
    (deleteIfNamed m st).genCalls = st.genCalls ∧
    (deleteIfNamed m st).pollSleeps = st.pollSleeps ∧
    (deleteIfNamed m st).backoffSleeps = st.backoffSleeps := by
  rcases m with _ | ⟨name, state⟩
  · exact ⟨rfl, rfl, rfl, rfl⟩
  · cases name <;> simp [deleteIfNamed]

theorem pollLoop_invar (gets : Nat → Except String Handle) (clock : Nat → ℤ)
    (start : ℤ) :
    ∀ (fuel : Nat) (h : Handle) (st : St),
      (pollLoop gets clock start fuel h st).1.u = st.u ∧
      (pollLoop gets clock start fuel h st).1.uploaded = st.uploaded ∧
      (pollLoop gets clock start fuel h st).1.backoffSleeps = st.backoffSleeps ∧
      (pollLoop gets clock start fuel h st).1.genCalls = st.genCalls ∧
      (pollLoop gets clock start fuel h st).1.deletes = st.deletes ∧
      ∃ n, (pollLoop gets clock start fuel h st).1.pollSleeps
            = st.pollSleeps ++ List.replicate n 2 := by
  intro fuel
  induction fuel with
  | zero =>
    intro h st
    simp only [pollLoop]
    split <;> exact ⟨rfl, rfl, rfl, rfl, rfl, 0, by simp⟩
  | succ fuel ih =>
    intro h st
    simp only [pollLoop]
    split
    · split
      · exact ⟨rfl, rfl, rfl, rfl, rfl, 0, by simp⟩
      · split
        · exact ⟨rfl, rfl, rfl, rfl, rfl, 1, by simp⟩
        · rename_i h2 heq
          obtain ⟨e1, e2, e3, e4, e5, n, e6⟩ := ih h2
            { st with t := st.t + 1, g := st.g + 1,
                      pollSleeps := st.pollSleeps ++ [2] }
          refine ⟨e1, e2, e3, e4, e5, n + 1, ?_⟩
          rw [e6]
          simp [List.replicate_succ]
    · exact ⟨rfl, rfl, rfl, rfl, rfl, 0, by simp⟩

theorem attemptOnce_invar (uploads gets : Nat → Except String Handle)
    (clock : Nat → ℤ) (pollFuel : Nat) (m0 : Option Handle) (st : St) :
    (attemptOnce uploads gets clock pollFuel m0 st).1.u = st.u + 1 ∧
    (attemptOnce uploads gets clock pollFuel m0 st).1.backoffSleeps
      = st.backoffSleeps ∧
    (attemptOnce uploads gets clock pollFuel m0 st).1.genCalls = st.genCalls ∧
    (attemptOnce uploads gets clock pollFuel m0 st).1.deletes = st.deletes ∧
    ∃ n, (attemptOnce uploads gets clock pollFuel m0 st).1.pollSleeps
          = st.pollSleeps ++ List.replicate n 2 := by
  cases hup : uploads st.u with
  | error e =>
    rw [attemptOnce_upload_err uploads gets clock pollFuel m0 st e hup]
    exact ⟨rfl, rfl, rfl, rfl, 0, by simp⟩
  | ok h =>
    cases hst : h.state with
    | none =>
      rw [attemptOnce_stateless uploads gets clock pollFuel m0 st h hup hst]
      exact ⟨rfl, rfl, rfl, rfl, 0, by simp⟩
    | some s =>
      obtain ⟨e1, e2, e3, e4, e5, n, e6⟩ := pollLoop_invar gets clock (clock st.t)
        pollFuel h { st with u := st.u + 1, uploaded := st.uploaded ++ [h],
                             t := st.t + 1 }
      rcases hp : pollLoop gets clock (clock st.t) pollFuel h
        { st with u := st.u + 1, uploaded := st.uploaded ++ [h], t := st.t + 1 }
        with ⟨st4, o⟩
      rw [hp] at e1 e3 e4 e5 e6
      dsimp only at e1 e3 e4 e5 e6
      cases o with
      | done h2 =>
        by_cases hact : h2.state = some "ACTIVE"
        · rw [attemptOnce_done_active uploads gets clock pollFuel m0 st st4 h h2 s
              hup hst hp hact]
          exact ⟨e1, e3, e4, e5, n, e6⟩
        · rw [attemptOnce_done_not_active uploads gets clock pollFuel m0 st st4 h h2 s
              hup hst hp hact]
          exact ⟨e1, e3, e4, e5, n, e6⟩
      | timeout h2 =>
        rw [attemptOnce_timeout uploads gets clock pollFuel m0 st st4 h h2 s hup hst hp]
        exact ⟨e1, e3, e4, e5, n, e6⟩
      | getErr h2 e =>
        rw [attemptOnce_getErr uploads gets clock pollFuel m0 st st4 h h2 s e hup hst hp]
        exact ⟨e1, e3, e4, e5, n, e6⟩
      | fuelOut h2 =>
        rw [attemptOnce_fuelOut uploads gets clock pollFuel m0 st st4 h h2 s hup hst hp]
        exact ⟨e1, e3, e4, e5, n, e6⟩

theorem attemptLoop_invar (uploads gets : Nat → Except String Handle)
    (clock : Nat → ℤ) (pollFuel : Nat) :
    ∀ (rem a : Nat) (m : Option Handle) (st : St),
      (attemptLoop uploads gets clock pollFuel rem a m st).1.u ≤ st.u + rem ∧
      (attemptLoop uploads gets clock pollFuel rem a m st).1.genCalls
        = st.genCalls ∧
      ∃ n, (attemptLoop uploads gets clock pollFuel rem a m st).1.pollSleeps
            = st.pollSleeps ++ List.replicate n 2 := by
  intro rem
  induction rem with
  | zero =>
    intro a m st
    refine ⟨?_, ?_, 0, ?_⟩ <;> simp [attemptLoop]
  | succ rem ih =>
    intro a m st
    obtain ⟨e1, e2, e3, e4, n, e5⟩ := attemptOnce_invar uploads gets clock pollFuel m st
    rcases hao : attemptOnce uploads gets clock pollFuel m st with ⟨st1, o⟩
    rw [hao] at e1 e2 e3 e4 e5
    dsimp only at e1 e2 e3 e4 e5
    cases o with
    | broke h =>
      rw [attemptLoop_step_broke uploads gets clock pollFuel rem a m st st1 h hao]
      exact ⟨by show st1.u ≤ st.u + (rem + 1); omega, e3, n, e5⟩
    | fuelOut m1 =>
      rw [attemptLoop_step_fuelOut uploads gets clock pollFuel rem a m m1 st st1 hao]
      exact ⟨by show st1.u ≤ st.u + (rem + 1); omega, e3, n, e5⟩
    | failed m1 e =>
      by_cases ha : a = 2
      · subst ha
        rw [attemptLoop_step_failed_last uploads gets clock pollFuel rem m m1 st st1 e hao]
        obtain ⟨d1, d2, d3, d4⟩ := deleteIfNamed_invar m1 st1
        refine ⟨?_, ?_, n, ?_⟩
        · show (deleteIfNamed m1 st1).u ≤ st.u + (rem + 1)
          omega
        · show (deleteIfNamed m1 st1).genCalls = st.genCalls
          rw [d2, e3]
        · show (deleteIfNamed m1 st1).pollSleeps = st.pollSleeps ++ List.replicate n 2
          rw [d3, e5]
      · rw [attemptLoop_step_failed_retry uploads gets clock pollFuel rem a m m1 st st1 e ha hao]
        obtain ⟨f1, f2, n2, f3⟩ := ih (a + 1) m1
          { st1 with backoffSleeps := st1.backoffSleeps ++ [2 * (a + 1)] }
        have f1x : (attemptLoop uploads gets clock pollFuel rem (a + 1) m1
            { st1 with backoffSleeps := st1.backoffSleeps ++ [2 * (a + 1)] }).1.u
            ≤ st1.u + rem := f1
        refine ⟨by omega, ?_, n + n2, ?_⟩
        · rw [f2]; exact e3
        · rw [f3]
          show st1.pollSleeps ++ List.replicate n2 2 = _
          rw [e5, List.append_assoc, ← List.replicate_add]

theorem attemptLoop_backoff (uploads gets : Nat → Except String Handle)
    (clock : Nat → ℤ) (pollFuel : Nat) :
    ∀ (rem a : Nat) (m : Option Handle) (st : St), a + rem = 3 → 1 ≤ rem →
      ∃ j, (attemptLoop uploads gets clock pollFuel rem a m st).1.backoffSleeps
            = st.backoffSleeps ++ (List.range' a j).map (fun i => 2 * (i + 1)) ∧
          a + j ≤ 2 := by
  intro rem
  induction rem with
  | zero => intro a m st h3 h1; omega
  | succ rem ih =>
    intro a m st h3 _
    obtain ⟨e1, e2, e3, e4, n, e5⟩ := attemptOnce_invar uploads gets clock pollFuel m st
    rcases hao : attemptOnce uploads gets clock pollFuel m st with ⟨st1, o⟩
    rw [hao] at e2
    dsimp only at e2
    cases o with
    | broke h =>
      rw [attemptLoop_step_broke uploads gets clock pollFuel rem a m st st1 h hao]
      exact ⟨0, by simp [e2], by omega⟩
    | fuelOut m1 =>
      rw [attemptLoop_step_fuelOut uploads gets clock pollFuel rem a m m1 st st1 hao]
      exact ⟨0, by simp [e2], by omega⟩
    | failed m1 e =>
      by_cases ha : a = 2
      · subst ha
        rw [attemptLoop_step_failed_last uploads gets clock pollFuel rem m m1 st st1 e hao]
        exact ⟨0, by simp [(deleteIfNamed_invar m1 st1).2.2.2, e2], by omega⟩
      · rw [attemptLoop_step_failed_retry uploads gets clock pollFuel rem a m m1 st st1 e ha hao]
        obtain ⟨j, f1, f2⟩ := ih (a + 1) m1
          { st1 with backoffSleeps := st1.backoffSleeps ++ [2 * (a + 1)] }
          (by omega) (by omega)
        refine ⟨j + 1, ?_, by omega⟩
        rw [f1]
        show st1.backoffSleeps ++ [2 * (a + 1)] ++ _ = _
        rw [e2, List.append_assoc]
        rfl

theorem genStep_invar (gen : Except String (Option String)) (h : Handle) (st : St) :
    (genStep gen h st).1.u = st.u ∧
    (genStep gen h st).1.genCalls = st.genCalls + 1 ∧
    (genStep gen h st).1.pollSleeps = st.pollSleeps ∧
    (genStep gen h st).1.backoffSleeps = st.backoffSleeps := by
  rcases gen with e | t
  · exact ⟨rfl, rfl, rfl, rfl⟩
  · cases t <;> exact ⟨rfl, rfl, rfl, rfl⟩

theorem evalBody_invar (fe : Bool) (uploads gets : Nat → Except String Handle)
    (clock : Nat → ℤ) (gen : Except String (Option String)) (path : String)
    (pollFuel : Nat) :
    (evalBody fe uploads gets clock gen path pollFuel).1.u ≤ 3 ∧
    (evalBody fe uploads gets clock gen path pollFuel).1.genCalls ≤ 1 ∧
    (∃ n, (evalBody fe uploads gets clock gen path pollFuel).1.pollSleeps
          = List.replicate n 2) ∧
    (∃ j, j ≤ 2 ∧
      (evalBody fe uploads gets clock gen path pollFuel).1.backoffSleeps
        = (List.range' 0 j).map (fun i => 2 * (i + 1))) := by
  cases fe with
  | false =>
    rw [evalBody_noFile uploads gets clock gen path pollFuel]
    exact ⟨by show (0 : ℕ) ≤ 3; omega, by show (0 : ℕ) ≤ 1; omega,
           ⟨0, by show ([] : List ℕ) = List.replicate 0 2; rfl⟩,
           0, by omega,
           by show ([] : List ℕ) = (List.range' 0 0).map (fun i => 2 * (i + 1)); rfl⟩
  | true =>
    obtain ⟨e1, e2, n, e3⟩ := attemptLoop_invar uploads gets clock pollFuel 3 0 none St.init
    obtain ⟨j, f1, f2⟩ := attemptLoop_backoff uploads gets clock pollFuel 3 0 none
      St.init rfl (by omega)
    replace f2 : j ≤ 2 := by omega
    rcases hal : attemptLoop uploads gets clock pollFuel 3 0 none St.init with ⟨st, o⟩
    rw [hal] at e1 e2 e3 f1
    have hst3 : st.u ≤ 3 := by simpa [St.init] using e1
    have hstg : st.genCalls = 0 := by simpa [St.init] using e2
    have hstp : st.pollSleeps = List.replicate n 2 := by simpa [St.init] using e3
    have hstb : st.backoffSleeps = (List.range' 0 j).map (fun i => 2 * (i + 1)) := by
      simpa [St.init] using f1
    cases o with
    | ok h =>
      rw [evalBody_loopOk uploads gets clock gen path pollFuel st h hal]
      obtain ⟨g1, g2, g3, g4⟩ := genStep_invar gen h st
      exact ⟨by omega, by omega, ⟨n, by rw [g3, hstp]⟩, j, f2, by rw [g4, hstb]⟩
    | err m e =>
      rw [evalBody_loopErr uploads gets clock gen path pollFuel st m e hal]
      exact ⟨hst3, by show st.genCalls ≤ 1; omega, ⟨n, hstp⟩, j, f2, hstb⟩
    | exhausted m =>
      cases m with
      | none =>
        simp only [evalBody, hal, if_true]
        exact ⟨hst3, by show st.genCalls ≤ 1; omega, ⟨n, hstp⟩, j, f2, hstb⟩
      | some h =>
        simp only [evalBody, hal, if_true]
        obtain ⟨g1, g2, g3, g4⟩ := genStep_invar gen h st
        exact ⟨by omega, by omega, ⟨n, by rw [g3, hstp]⟩, j, f2, by rw [g4, hstb]⟩
    | diverged m =>
      simp only [evalBody, hal, if_true]
      exact ⟨hst3, by show st.genCalls ≤ 1; omega, ⟨n, hstp⟩, j, f2, hstb⟩

theorem evaluate_invar (fe : Bool) (uploads gets : Nat → Except String Handle)
    (clock : Nat → ℤ) (gen : Except String (Option String)) (path : String)
    (pollFuel : Nat) :
    (evaluate fe uploads gets clock gen path pollFuel).st.u ≤ 3 ∧
    (evaluate fe uploads gets clock gen path pollFuel).st.genCalls ≤ 1 ∧
    (∃ n, (evaluate fe uploads gets clock gen path pollFuel).st.pollSleeps
          = List.replicate n 2) ∧
    (∃ j, j ≤ 2 ∧
      (evaluate fe uploads gets clock gen path pollFuel).st.backoffSleeps
        = (List.range' 0 j).map (fun i => 2 * (i + 1))) := by
  obtain ⟨e1, e2, ⟨n, e3⟩, j, f1, f2⟩ := evalBody_invar fe uploads gets clock gen path pollFuel
  rcases hb : evalBody fe uploads gets clock gen path pollFuel with ⟨st, b⟩
  rw [hb] at e1 e2 e3 f2
  dsimp only at e1 e2 e3 f2
  cases b with
  | returned h txt =>
    rw [evaluate_returned fe uploads gets clock gen path pollFuel st h txt hb]
    obtain ⟨d1, d2, d3, d4⟩ := deleteIfNamed_invar (some h) st
    refine ⟨?_, ?_, ⟨n, ?_⟩, j, f1, ?_⟩
    · show (deleteIfNamed (some h) st).u ≤ 3
      omega
    · show (deleteIfNamed (some h) st).genCalls ≤ 1
      omega
    · show (deleteIfNamed (some h) st).pollSleeps = List.replicate n 2
      rw [d3]; exact e3
    · show (deleteIfNamed (some h) st).backoffSleeps = _
      rw [d4]; exact f2
  | errored m e =>
    rw [evaluate_errored fe uploads gets clock gen path pollFuel st m e hb]
    obtain ⟨d1, d2, d3, d4⟩ := deleteIfNamed_invar m st
    refine ⟨?_, ?_, ⟨n, ?_⟩, j, f1, ?_⟩
    · show (deleteIfNamed m st).u ≤ 3
      omega
    · show (deleteIfNamed m st).genCalls ≤ 1
      omega
    · show (deleteIfNamed m st).pollSleeps = List.replicate n 2
      rw [d3]; exact e3
    · show (deleteIfNamed m st).backoffSleeps = _
      rw [d4]; exact f2
  | diverged =>
    simp only [evaluate, hb]
    exact ⟨e1, e2, ⟨n, e3⟩, j, f1, f2⟩

theorem evaluate_err_shape (fe : Bool) (uploads gets : Nat → Except String Handle)
    (clock : Nat → ℤ) (gen : Except String (Option String)) (path : String)
    (pollFuel : Nat) (m : String)
    (hm : (evaluate fe uploads gets clock gen path pollFuel).result
          = some (.error m)) :
    ∃ e, m = "Evaluation failed: " ++ e := by
  rcases hb : evalBody fe uploads gets clock gen path pollFuel with ⟨st, b⟩
  cases b with
  | returned h txt =>
    rw [evaluate_returned fe uploads gets clock gen path pollFuel st h txt hb] at hm
    simp at hm
  | errored m1 e =>
    rw [evaluate_errored fe uploads gets clock gen path pollFuel st m1 e hb] at hm
    exact ⟨e, by simpa using hm.symm⟩
  | diverged =>
    rw [show evaluate fe uploads gets clock gen path pollFuel = ⟨st, none⟩ from by
          simp only [evaluate, hb]] at hm
    simp at hm

end ProjectAssessment

namespace ProjectAssessment

/-! ### Lemmas about score extraction -/

theorem matchLit_append (pre rest : List Char) : matchLit pre (pre ++ rest) = some rest := by
  induction pre with
  | nil => rfl
  | cons c cs ih => simp [matchLit, ih]

theorem matchesAt_pat23 (t : List Char) : matchesAt (pat23 ++ t) = some 23 := rfl

theorem searchScore_skip (p q : List Char)
    (hp : ∀ i, i < p.length → matchesAt ((p ++ q).drop i) = none) :
    searchScore (p ++ q) = searchScore q := by
  induction p with
  | nil => rfl
  | cons c cs ih =>
    have h0 : matchesAt (c :: (cs ++ q)) = none := by
      have := hp 0 (by simp)
      simpa using this
    have hrest : ∀ i, i < cs.length → matchesAt ((cs ++ q).drop i) = none := by
      intro i hi
      have := hp (i + 1) (by simp; omega)
      simpa using this
    calc searchScore ((c :: cs) ++ q) = searchScore (cs ++ q) := by
          show (match matchesAt (c :: (cs ++ q)) with
                | some n => some n
                | none => searchScore (cs ++ q)) = searchScore (cs ++ q)
          rw [h0]
      _ = searchScore q := ih hrest

theorem searchScore_none (s : List Char)
    (hs : ∀ i, i ≤ s.length → matchesAt (s.drop i) = none) :
    searchScore s = none := by
  induction s with
  | nil => rfl
  | cons c cs ih =>
    have h0 : matchesAt (c :: cs) = none := by simpa using hs 0 (by simp)
    have hr := ih (fun i hi => by simpa using hs (i + 1) (by simpa using hi))
    show (match matchesAt (c :: cs) with
          | some n => some n
          | none => searchScore cs) = none
    rw [h0]
    exact hr

end ProjectAssessment

namespace ProjectAssessment

/-! ### Claim theorems -/

/-- C7: score extraction scans the evaluation text for the pattern
`Overall Score:\s*(\d+)/` and takes the leftmost match: every text whose
first match is the occurrence of "Overall Score: 23/30" yields score 23
(`float("23") = 23.0` exactly, modelled as `Nat`), and every text with no
matching substring yields an absent score rather than an error (the
extraction is total and returns an `Option`). -/
theorem C7_score_extraction :
    (∀ p t : List Char,
       (∀ i, i < p.length → matchesAt ((p ++ (pat23 ++ t)).drop i) = none) →
       searchScore (p ++ (pat23 ++ t)) = some 23) ∧
    (∀ s : List Char, (∀ i, i ≤ s.length → matchesAt (s.drop i) = none) →
       searchScore s = none) ∧
    (∀ txt : String, txt ≠ "" → extract_score txt = searchScore txt.data) ∧
    extract_score "" = none := by
  refine ⟨?_, searchScore_none, ?_, rfl⟩
  · intro p t hp
    rw [searchScore_skip p (pat23 ++ t) hp]
    rfl
  · intro txt htxt
    simp [extract_score, htxt]

/-- Witness for C7: a text whose first match is "Overall Score: 23/30"
after a non-matching prefix extracts 23, and a text with no match
extracts nothing. -/
theorem C7_score_extraction_witness :
    searchScore ("## ".data ++ (pat23 ++ " overall".data)) = some 23 ∧
    searchScore "no score in this text".data = none ∧
    extract_score "Overall Score: 23/30" = searchScore "Overall Score: 23/30".data :=
  ⟨C7_score_extraction.1 "## ".data " overall".data (by decide),
   C7_score_extraction.2.1 "no score in this text".data (by decide),
   C7_score_extraction.2.2.1 "Overall Score: 23/30" (by decide)⟩

/-- C10: calling `evaluate` on a path that does not exist fails with the
file-not-found error wrapped into the `Evaluation failed:` wrapper before
any upload attempt is made, so no remote handle is ever created (and no
delete is issued). -/
theorem C10_missing_local_file (env : Env) (path : String) (pollFuel : Nat)
    (hfe : env.fileExists = false) :
    (runEval env path pollFuel).result
      = some (.error ("Evaluation failed: " ++ ("File not found: " ++ path))) ∧
    (runEval env path pollFuel).st.u = 0 ∧
    (runEval env path pollFuel).st.uploaded = [] ∧
    (runEval env path pollFuel).st.deletes = [] := by
  have hb : evalBody env.fileExists env.uploads env.gets env.clock env.generate
      path pollFuel = (St.init, .errored none ("File not found: " ++ path)) := by
    rw [hfe]
    exact evalBody_noFile env.uploads env.gets env.clock env.generate path pollFuel
  have hev := evaluate_errored env.fileExists env.uploads env.gets env.clock
    env.generate path pollFuel St.init none ("File not found: " ++ path) hb
  unfold runEval
  rw [hev]
  exact ⟨rfl, rfl, rfl, rfl⟩

/-- Witness for C10 at the oracle `envNoFile`. -/
theorem C10_missing_local_file_witness :
    (runEval envNoFile "/tmp/gone.pdf" 3).result
      = some (.error ("Evaluation failed: " ++ ("File not found: " ++ "/tmp/gone.pdf"))) ∧
    (runEval envNoFile "/tmp/gone.pdf" 3).st.u = 0 ∧
    (runEval envNoFile "/tmp/gone.pdf" 3).st.uploaded = [] ∧
    (runEval envNoFile "/tmp/gone.pdf" 3).st.deletes = [] :=
  C10_missing_local_file envNoFile "/tmp/gone.pdf" 3 rfl

/-- C9: a request whose file reports no size at all (`file.size` is
`None`) is rejected with the `empty_file` 400 error, exactly like a
zero-byte file. -/
theorem C9_unknown_size_empty (r : UploadReq) (f : String)
    (hf : r.filename = some f) (hne : f ≠ "") (hal : is_allowed_file f = true)
    (hs : r.step_name ≠ "") (hd : r.deliverable_name ≠ "")
    (hsz : r.size = none) :
    validateRequest r = ⟨false, some (400, emptyFileBody)⟩ ∧
    validateRequest { r with size := some 0 } = ⟨false, some (400, emptyFileBody)⟩ := by
  constructor <;>
    simp [validateRequest, hf, hal, filenameTruthy, hne, hs, hd, hsz]

/-- Witness for C9 at a concrete request. -/
theorem C9_unknown_size_empty_witness :
    validateRequest ⟨some "a.pdf", "Step", "Deliv", none⟩
      = ⟨false, some (400, emptyFileBody)⟩ ∧
    validateRequest ⟨some "a.pdf", "Step", "Deliv", some 0⟩
      = ⟨false, some (400, emptyFileBody)⟩ :=
  C9_unknown_size_empty ⟨some "a.pdf", "Step", "Deliv", none⟩ "a.pdf" rfl
    (by decide) (by decide) (by decide) (by decide) rfl

/-- C5: the four gate validations run in source order — extension
allow-list (`invalid_file_type`, carrying the sorted allowed types), then
required fields (`missing_required_fields`), then non-empty file
(`empty_file`), then the 50 MiB ceiling (`file_too_large`) — each a
distinct 400, and every request failing the extension check is rejected
before the temporary file is created (`tempCreated = false`). -/
theorem C5_validation_order :
    (∀ r : UploadReq,
       (r.filename = none ∨ r.filename = some "" ∨
        ∀ f, r.filename = some f → is_allowed_file f = false) →
       validateRequest r = ⟨false, some (400, invalidFileTypeBody)⟩) ∧
    (∀ (r : UploadReq) (f : String), r.filename = some f → f ≠ "" →
       is_allowed_file f = true →
       (r.step_name = "" ∨ r.deliverable_name = "") →
       validateRequest r = ⟨false, some (400, missingFieldsBody)⟩) ∧
    (∀ (r : UploadReq) (f : String), r.filename = some f → f ≠ "" →
       is_allowed_file f = true → r.step_name ≠ "" → r.deliverable_name ≠ "" →
       (r.size = none ∨ r.size = some 0) →
       validateRequest r = ⟨false, some (400, emptyFileBody)⟩) ∧
    (∀ (r : UploadReq) (f : String) (n : Nat), r.filename = some f → f ≠ "" →
       is_allowed_file f = true → r.step_name ≠ "" → r.deliverable_name ≠ "" →
       r.size = some n → MAX_FILE_SIZE < n →
       validateRequest r
         = ⟨false, some (400, fileTooLargeBody (round2 ((n : ℚ) / (1024 * 1024))))⟩) ∧
    [invalidFileTypeBody.error, missingFieldsBody.error, emptyFileBody.error,
     (fileTooLargeBody 0).error].Nodup := by
  refine ⟨?_, ?_, ?_, ?_, by decide⟩
  · intro r hr
    rcases hr with hr | hr | hr
    · simp [validateRequest, hr, filenameTruthy]
    · simp [validateRequest, hr, filenameTruthy]
    · rcases hfn : r.filename with _ | f
      · simp [validateRequest, hfn, filenameTruthy]
      · simp [validateRequest, hfn, filenameTruthy, hr f hfn]
  · intro r f hf hne hal hmiss
    rcases hmiss with hmiss | hmiss <;>
      simp [validateRequest, hf, hal, filenameTruthy, hne, hmiss]
  · intro r f hf hne hal hs hd hsz
    rcases hsz with hsz | hsz <;>
      simp [validateRequest, hf, hal, filenameTruthy, hne, hs, hd, hsz]
  · intro r f n hf hne hal hs hd hsz hlt
    have hn0 : ¬ n = 0 := by
      simp [MAX_FILE_SIZE] at hlt
      omega
    simp [validateRequest, hf, hal, filenameTruthy, hne, hs, hd, hsz, hn0, hlt]

/-- Witness for C5: one concrete request per validation, including a
disallowed extension together with an empty `step_name`, showing the
extension check wins. -/
theorem C5_validation_order_witness :
    validateRequest ⟨some "a.exe", "", "d", some 5⟩
      = ⟨false, some (400, invalidFileTypeBody)⟩ ∧
    validateRequest ⟨some "a.pdf", "", "d", some 5⟩
      = ⟨false, some (400, missingFieldsBody)⟩ ∧
    validateRequest ⟨some "a.pdf", "s", "d", some 0⟩
      = ⟨false, some (400, emptyFileBody)⟩ ∧
    validateRequest ⟨some "a.pdf", "s", "d", some 52428801⟩
      = ⟨false, some (400, fileTooLargeBody (round2 ((52428801 : ℚ) / (1024 * 1024))))⟩ :=
  ⟨C5_validation_order.1 ⟨some "a.exe", "", "d", some 5⟩
     (Or.inr (Or.inr (fun f hf => by simp at hf; subst hf; decide))),
   C5_validation_order.2.1 ⟨some "a.pdf", "", "d", some 5⟩ "a.pdf" rfl
     (by decide) (by decide) (Or.inl rfl),
   C5_validation_order.2.2.1 ⟨some "a.pdf", "s", "d", some 0⟩ "a.pdf" rfl
     (by decide) (by decide) (by decide) (by decide) (Or.inr rfl),
   C5_validation_order.2.2.2.1 ⟨some "a.pdf", "s", "d", some 52428801⟩ "a.pdf"
     52428801 rfl (by decide) (by decide) (by decide) (by decide) rfl (by decide)⟩

/-- C6: a zero-size upload fails with `empty_file`; a size strictly above
50 MiB (52,428,800 bytes) fails with `file_too_large` whose body carries
`max_size_mb = 50` and `actual_size_mb = round2(size/MiB)`; exactly
50 MiB is not rejected (all validations pass and the temp file is
created).  The sample value: 52,428,801 bytes rounds to 50.00 MiB. -/
theorem C6_size_boundaries :
    (∀ (r : UploadReq) (f : String), r.filename = some f → f ≠ "" →
       is_allowed_file f = true → r.step_name ≠ "" → r.deliverable_name ≠ "" →
       r.size = some 0 →
       validateRequest r = ⟨false, some (400, emptyFileBody)⟩) ∧
    (∀ (r : UploadReq) (f : String) (n : Nat), r.filename = some f → f ≠ "" →
       is_allowed_file f = true → r.step_name ≠ "" → r.deliverable_name ≠ "" →
       r.size = some n → 52428800 < n →
       validateRequest r
         = ⟨false, some (400, fileTooLargeBody (round2 ((n : ℚ) / (1024 * 1024))))⟩ ∧
       (fileTooLargeBody (round2 ((n : ℚ) / (1024 * 1024)))).max_size_mb = some 50 ∧
       (fileTooLargeBody (round2 ((n : ℚ) / (1024 * 1024)))).actual_size_mb
         = some (round2 ((n : ℚ) / (1024 * 1024)))) ∧
    (∀ (r : UploadReq) (f : String), r.filename = some f → f ≠ "" →
       is_allowed_file f = true → r.step_name ≠ "" → r.deliverable_name ≠ "" →
       r.size = some 52428800 →
       validateRequest r = ⟨true, none⟩) ∧
    round2 ((52428801 : ℚ) / (1024 * 1024)) = 50 := by
  refine ⟨?_, ?_, ?_, ?_⟩
  · intro r f hf hne hal hs hd hsz
    simp [validateRequest, hf, hal, filenameTruthy, hne, hs, hd, hsz]
  · intro r f n hf hne hal hs hd hsz hlt
    have hn0 : ¬ n = 0 := by omega
    have hmax : MAX_FILE_SIZE < n := by simp [MAX_FILE_SIZE]; omega
    exact ⟨by simp [validateRequest, hf, hal, filenameTruthy, hne, hs, hd, hsz, hn0, hmax],
           rfl, rfl⟩
  · intro r f hf hne hal hs hd hsz
    simp [validateRequest, hf, hal, filenameTruthy, hne, hs, hd, hsz, MAX_FILE_SIZE]
  · have hfl : ⌊((52428801 : ℚ) / (1024 * 1024) * 100)⌋ = 5000 := by
      rw [Int.floor_eq_iff]
      constructor <;> norm_num
    unfold round2 roundHalfEven
    rw [hfl]
    norm_num

/-- Witness for C6 at concrete sizes 0, 52,428,801 and 52,428,800. -/
theorem C6_size_boundaries_witness :
    validateRequest ⟨some "b.pdf", "s", "d", some 0⟩
      = ⟨false, some (400, emptyFileBody)⟩ ∧
    validateRequest ⟨some "b.pdf", "s", "d", some 52428801⟩
      = ⟨false, some (400, fileTooLargeBody (round2 ((52428801 : ℚ) / (1024 * 1024))))⟩ ∧
    validateRequest ⟨some "b.pdf", "s", "d", some 52428800⟩ = ⟨true, none⟩ :=
  ⟨C6_size_boundaries.1 ⟨some "b.pdf", "s", "d", some 0⟩ "b.pdf" rfl
     (by decide) (by decide) (by decide) (by decide) rfl,
   (C6_size_boundaries.2.1 ⟨some "b.pdf", "s", "d", some 52428801⟩ "b.pdf" 52428801
     rfl (by decide) (by decide) (by decide) (by decide) rfl (by decide)).1,
   C6_size_boundaries.2.2.1 ⟨some "b.pdf", "s", "d", some 52428800⟩ "b.pdf" rfl
     (by decide) (by decide) (by decide) (by decide) rfl⟩

/-- C1 (code bug): the claim demands that every remote handle created
during an `evaluate` call is deleted exactly once before the call
returns.  Evaluating the code at the oracle `envLeak` — the first upload
returns handle `files/a1` in PROCESSING state, its poll times out, the
retried upload returns `files/a2` which is ACTIVE, generation succeeds —
shows two handles created but only `files/a2` ever deleted: `files/a1`
is never deleted and leaks, while the call returns success.  (On
last-attempt failures the same handle is even deleted twice, once by the
retry cleanup and once by the `finally` block.) -/
theorem C1_remote_delete_leak :
    (runEval envLeak "/tmp/f.pdf" 5).st.uploaded = [handleProc, handleActive] ∧
    (runEval envLeak "/tmp/f.pdf" 5).st.deletes = ["files/a2"] ∧
    handleProc.name = some "files/a1" ∧
    "files/a1" ∉ (runEval envLeak "/tmp/f.pdf" 5).st.deletes ∧
    (runEval envLeak "/tmp/f.pdf" 5).result = some (.ok "EVAL TEXT") :=
  ⟨by decide, by decide, by decide, by decide, rfl⟩

/-- C3 counterexample: in the `envLeak` run the 30-second processing
budget elapses (the timeout error is raised internally, recorded in
`timeouts`), yet the evaluation does not fail with ProcessingTimeout —
it re-uploads and returns success. -/
theorem C3_timeout_not_failing :
    (runEval envLeak "/tmp/f.pdf" 5).st.timeouts = 1 ∧
    (runEval envLeak "/tmp/f.pdf" 5).result = some (.ok "EVAL TEXT") :=
  ⟨by decide, rfl⟩

end ProjectAssessment

namespace ProjectAssessment

/-! ### Chain helpers for scenario proofs -/

theorem attemptLoop_ok_now (uploads gets : Nat → Except String Handle)
    (clock : Nat → ℤ) (pollFuel rem a : Nat) (m : Option Handle) (st : St)
    (h : Handle) (hup : uploads st.u = .ok h) (hact : h.state = some "ACTIVE") :
    attemptLoop uploads gets clock pollFuel (rem + 1) a m st
      = ({ st with u := st.u + 1, uploaded := st.uploaded ++ [h], t := st.t + 1 },
         .ok h) := by
  have hnp : ¬ h.state = some "PROCESSING" := by rw [hact]; simp
  have hp := pollLoop_not_processing gets clock (clock st.t) pollFuel h
    { st with u := st.u + 1, uploaded := st.uploaded ++ [h], t := st.t + 1 } hnp
  have hao := attemptOnce_done_active uploads gets clock pollFuel m st
    { st with u := st.u + 1, uploaded := st.uploaded ++ [h], t := st.t + 1 }
    h h "ACTIVE" hup hact hp hact
  exact attemptLoop_step_broke uploads gets clock pollFuel rem a m st _ h hao

theorem attemptLoop_upload_err_retry (uploads gets : Nat → Except String Handle)
    (clock : Nat → ℤ) (pollFuel rem a : Nat) (m : Option Handle) (st : St)
    (e : String) (hup : uploads st.u = .error e) (ha : ¬ a = 2) :
    attemptLoop uploads gets clock pollFuel (rem + 1) a m st
      = attemptLoop uploads gets clock pollFuel rem (a + 1) m
          { st with u := st.u + 1,
                    backoffSleeps := st.backoffSleeps ++ [2 * (a + 1)] } := by
  rw [attemptLoop_step_failed_retry uploads gets clock pollFuel rem a m m st
      { st with u := st.u + 1 } e ha
      (attemptOnce_upload_err uploads gets clock pollFuel m st e hup)]

/-- C2: the upload call is attempted at most 3 times; the between-attempt
backoff sleeps are `2 * (attempt + 1)` seconds, hence strictly
increasing; if fewer than 3 upload calls throw and the next succeeds
(handle immediately ACTIVE, generation succeeding), the call succeeds
with exactly k+1 ≤ 3 upload calls; if all 3 attempts throw, the call
fails with the upload-failure wrapper carrying the last underlying error
(no leftover handle exists, so no delete is issued); when the final
attempt fails after a handle was created, that handle's deletion is
attempted before the failure surfaces. -/
theorem C2_upload_retry_policy :
    (∀ (env : Env) (path : String) (pollFuel : Nat),
       (runEval env path pollFuel).st.u ≤ 3) ∧
    (∀ (env : Env) (path : String) (pollFuel : Nat), ∃ j, j ≤ 2 ∧
       (runEval env path pollFuel).st.backoffSleeps
         = (List.range' 0 j).map (fun i => 2 * (i + 1)) ∧
       List.Chain' (· < ·) (runEval env path pollFuel).st.backoffSleeps) ∧
    (∀ (env : Env) (path : String) (pollFuel k : Nat) (h : Handle) (txt : String),
       env.fileExists = true → k < 3 →
       (∀ j, j < k → ∃ e, env.uploads j = .error e) →
       env.uploads k = .ok h → h.state = some "ACTIVE" →
       env.generate = .ok (some txt) →
       (runEval env path pollFuel).result = some (.ok txt) ∧
       (runEval env path pollFuel).st.u = k + 1) ∧
    (∀ (env : Env) (path : String) (pollFuel : Nat) (e0 e1 e2 : String),
       env.fileExists = true →
       env.uploads 0 = .error e0 → env.uploads 1 = .error e1 →
       env.uploads 2 = .error e2 →
       (runEval env path pollFuel).result
         = some (.error ("Evaluation failed: "
             ++ ("Failed to upload file after 3 attempts: " ++ e2))) ∧
       (runEval env path pollFuel).st.deletes = []) ∧
    (∀ (env : Env) (path : String) (pollFuel : Nat) (e0 e1 nm s : String),
       env.fileExists = true →
       env.uploads 0 = .error e0 → env.uploads 1 = .error e1 →
       env.uploads 2 = .ok ⟨some nm, some s⟩ →
       s ≠ "PROCESSING" → s ≠ "ACTIVE" →
       nm ∈ (runEval env path pollFuel).st.deletes ∧
       (runEval env path pollFuel).result
         = some (.error ("Evaluation failed: "
             ++ ("Failed to upload file after 3 attempts: "
                 ++ ("File is not in ACTIVE state after upload. State: " ++ s))))) := by
  refine ⟨?_, ?_, ?_, ?_, ?_⟩
  · intro env path pollFuel
    exact (evaluate_invar env.fileExists env.uploads env.gets env.clock
      env.generate path pollFuel).1
  · intro env path pollFuel
    obtain ⟨j, hj, hb⟩ := (evaluate_invar env.fileExists env.uploads env.gets
      env.clock env.generate path pollFuel).2.2.2
    have hb' : (runEval env path pollFuel).st.backoffSleeps
        = (List.range' 0 j).map (fun i => 2 * (i + 1)) := hb
    refine ⟨j, hj, hb', ?_⟩
    rw [hb']
    interval_cases j <;> simp [List.range']
  · intro env path pollFuel k h txt hfe hk hprev hupk hact hgen
    have hres : ∀ st' : St,
        attemptLoop env.uploads env.gets env.clock pollFuel 3 0 none St.init
          = (st', .ok h) →
        (runEval env path pollFuel).result = some (.ok txt) ∧
        (runEval env path pollFuel).st.u = st'.u := by
      intro st' hal
      have hb := evalBody_loopOk env.uploads env.gets env.clock env.generate
        path pollFuel st' h hal
      have hg : genStep env.generate h st'
          = ({ st' with genCalls := st'.genCalls + 1 }, .returned h txt) := by
        rw [hgen]; rfl
      have hb2 : evalBody true env.uploads env.gets env.clock env.generate path pollFuel
          = ({ st' with genCalls := st'.genCalls + 1 }, .returned h txt) := by
        rw [hb, hg]
      have hev := evaluate_returned true env.uploads env.gets env.clock env.generate
        path pollFuel { st' with genCalls := st'.genCalls + 1 } h txt hb2
      unfold runEval
      rw [hfe, hev]
      exact ⟨rfl, (deleteIfNamed_invar (some h) _).1⟩
    interval_cases k
    · have hal := attemptLoop_ok_now env.uploads env.gets env.clock pollFuel
        2 0 none St.init h hupk hact
      have hc := hres _ hal
      exact ⟨hc.1, hc.2⟩
    · obtain ⟨e0, he0⟩ := hprev 0 (by omega)
      have hr1 := attemptLoop_upload_err_retry env.uploads env.gets env.clock pollFuel
        2 0 none St.init e0 he0 (by decide)
      have hal := attemptLoop_ok_now env.uploads env.gets env.clock pollFuel
        1 1 none { St.init with u := St.init.u + 1, backoffSleeps := St.init.backoffSleeps ++ [2 * (0 + 1)] } h hupk hact
      have hc := hres _ (hr1.trans hal)
      exact ⟨hc.1, hc.2⟩
    · obtain ⟨e0, he0⟩ := hprev 0 (by omega)
      obtain ⟨e1, he1⟩ := hprev 1 (by omega)
      have hr1 := attemptLoop_upload_err_retry env.uploads env.gets env.clock pollFuel
        2 0 none St.init e0 he0 (by decide)
      have hr2 := attemptLoop_upload_err_retry env.uploads env.gets env.clock pollFuel
        1 1 none { St.init with u := St.init.u + 1, backoffSleeps := St.init.backoffSleeps ++ [2 * (0 + 1)] } e1 he1 (by decide)
      have hal := attemptLoop_ok_now env.uploads env.gets env.clock pollFuel
        0 2 none { { St.init with u := St.init.u + 1, backoffSleeps := St.init.backoffSleeps ++ [2 * (0 + 1)] } with u := St.init.u + 1 + 1, backoffSleeps := St.init.backoffSleeps ++ [2 * (0 + 1)] ++ [2 * (1 + 1)] } h hupk hact
      have hc := hres _ (hr1.trans (hr2.trans hal))
      exact ⟨hc.1, hc.2⟩
  · intro env path pollFuel e0 e1 e2 hfe h0 h1 h2
    have hr1 := attemptLoop_upload_err_retry env.uploads env.gets env.clock pollFuel
      2 0 none St.init e0 h0 (by decide)
    have hr2 := attemptLoop_upload_err_retry env.uploads env.gets env.clock pollFuel
      1 1 none { St.init with u := St.init.u + 1, backoffSleeps := St.init.backoffSleeps ++ [2 * (0 + 1)] } e1 h1 (by decide)
    have hao := attemptOnce_upload_err env.uploads env.gets env.clock pollFuel none
      { { St.init with u := St.init.u + 1, backoffSleeps := St.init.backoffSleeps ++ [2 * (0 + 1)] } with u := St.init.u + 1 + 1, backoffSleeps := St.init.backoffSleeps ++ [2 * (0 + 1)] ++ [2 * (1 + 1)] } e2 h2
    have hl := attemptLoop_step_failed_last env.uploads env.gets env.clock pollFuel
      0 none none _ _ e2 hao
    have hal := (hr1.trans (hr2.trans hl))
    have hb := evalBody_loopErr env.uploads env.gets env.clock env.generate path pollFuel
      _ none ("Failed to upload file after 3 attempts: " ++ e2) hal
    have hev := evaluate_errored true env.uploads env.gets env.clock env.generate
      path pollFuel _ none ("Failed to upload file after 3 attempts: " ++ e2) hb
    unfold runEval
    rw [hfe, hev]
    exact ⟨rfl, rfl⟩
  · intro env path pollFuel e0 e1 nm s hfe h0 h1 h2 hsP hsA
    have hr1 := attemptLoop_upload_err_retry env.uploads env.gets env.clock pollFuel
      2 0 none St.init e0 h0 (by decide)
    have hr2 := attemptLoop_upload_err_retry env.uploads env.gets env.clock pollFuel
      1 1 none { St.init with u := St.init.u + 1, backoffSleeps := St.init.backoffSleeps ++ [2 * (0 + 1)] } e1 h1 (by decide)
    have hnp : ¬ (Handle.mk (some nm) (some s)).state = some "PROCESSING" := by
      simp [hsP]
    have hnact : ¬ (Handle.mk (some nm) (some s)).state = some "ACTIVE" := by
      simp [hsA]
    have hp := pollLoop_not_processing env.gets env.clock
      (env.clock ({ { St.init with u := St.init.u + 1, backoffSleeps := St.init.backoffSleeps ++ [2 * (0 + 1)] } with u := St.init.u + 1 + 1, backoffSleeps := St.init.backoffSleeps ++ [2 * (0 + 1)] ++ [2 * (1 + 1)] } : St).t)
      pollFuel (Handle.mk (some nm) (some s))
      { ({ { St.init with u := St.init.u + 1, backoffSleeps := St.init.backoffSleeps ++ [2 * (0 + 1)] } with u := St.init.u + 1 + 1, backoffSleeps := St.init.backoffSleeps ++ [2 * (0 + 1)] ++ [2 * (1 + 1)] } : St) with u := ({ { St.init with u := St.init.u + 1, backoffSleeps := St.init.backoffSleeps ++ [2 * (0 + 1)] } with u := St.init.u + 1 + 1, backoffSleeps := St.init.backoffSleeps ++ [2 * (0 + 1)] ++ [2 * (1 + 1)] } : St).u + 1, uploaded := ({ { St.init with u := St.init.u + 1, backoffSleeps := St.init.backoffSleeps ++ [2 * (0 + 1)] } with u := St.init.u + 1 + 1, backoffSleeps := St.init.backoffSleeps ++ [2 * (0 + 1)] ++ [2 * (1 + 1)] } : St).uploaded ++ [Handle.mk (some nm) (some s)], t := ({ { St.init with u := St.init.u + 1, backoffSleeps := St.init.backoffSleeps ++ [2 * (0 + 1)] } with u := St.init.u + 1 + 1, backoffSleeps := St.init.backoffSleeps ++ [2 * (0 + 1)] ++ [2 * (1 + 1)] } : St).t + 1 } hnp
    have hao := attemptOnce_done_not_active env.uploads env.gets env.clock pollFuel none
      { { St.init with u := St.init.u + 1, backoffSleeps := St.init.backoffSleeps ++ [2 * (0 + 1)] } with u := St.init.u + 1 + 1, backoffSleeps := St.init.backoffSleeps ++ [2 * (0 + 1)] ++ [2 * (1 + 1)] }
      _ (Handle.mk (some nm) (some s)) (Handle.mk (some nm) (some s)) s h2 rfl hp hnact
    have hl := attemptLoop_step_failed_last env.uploads env.gets env.clock pollFuel
      0 none (some (Handle.mk (some nm) (some s))) _ _
      (notActiveMsg (Handle.mk (some nm) (some s)).state) hao
    have hal := hr1.trans (hr2.trans hl)
    have hb := evalBody_loopErr env.uploads env.gets env.clock env.generate path pollFuel
      _ (some (Handle.mk (some nm) (some s)))
      ("Failed to upload file after 3 attempts: "
        ++ notActiveMsg (Handle.mk (some nm) (some s)).state) hal
    have hev := evaluate_errored true env.uploads env.gets env.clock env.generate
      path pollFuel _ (some (Handle.mk (some nm) (some s)))
      ("Failed to upload file after 3 attempts: "
        ++ notActiveMsg (Handle.mk (some nm) (some s)).state) hb
    unfold runEval
    rw [hfe, hev]
    constructor
    · simp [deleteIfNamed, St.init]
    · rfl

/-- Witness for C2: the transient-then-success run `envRetryOk` (one
failure, success on the second call), the all-fail run `envAllFail`, and
the leftover-handle run `envNotActive`. -/
theorem C2_upload_retry_policy_witness :
    ((runEval envRetryOk "/tmp/a.pdf" 1).result = some (.ok "X") ∧
     (runEval envRetryOk "/tmp/a.pdf" 1).st.u = 1 + 1) ∧
    ((runEval envAllFail "/tmp/a.pdf" 1).result
       = some (.error ("Evaluation failed: "
           ++ ("Failed to upload file after 3 attempts: " ++ "e"))) ∧
     (runEval envAllFail "/tmp/a.pdf" 1).st.deletes = []) ∧
    "files/n" ∈ (runEval envNotActive "/tmp/a.pdf" 1).st.deletes :=
  ⟨C2_upload_retry_policy.2.2.1 envRetryOk "/tmp/a.pdf" 1 1
     ⟨some "files/w", some "ACTIVE"⟩ "X" rfl (by omega)
     (fun j hj => ⟨"transient", by interval_cases j; rfl⟩) rfl rfl rfl,
   C2_upload_retry_policy.2.2.2.1 envAllFail "/tmp/a.pdf" 1 "e" "e" "e"
     rfl rfl rfl rfl,
   (C2_upload_retry_policy.2.2.2.2 envNotActive "/tmp/a.pdf" 1 "netfail" "netfail"
     "files/n" "FAILED" rfl rfl rfl rfl (by decide) (by decide)).1⟩

/-- C3 (amended): while the remote state is PROCESSING the evaluator
polls at the fixed 2-second interval against the strict 30-second budget,
but a timeout or a terminal non-ACTIVE state aborts only the current
upload attempt: on the final attempt the failure surfaces wrapped in the
upload-failure error (carrying the timeout message, resp. the
FileNotActive message naming the observed state), while on an earlier
attempt the evaluator re-uploads instead of failing (shown by the
`envLeak` run, which times out once, re-uploads and succeeds). -/
theorem C3_polling_amended :
    (∀ (env : Env) (path : String) (pollFuel : Nat), ∃ n,
       (runEval env path pollFuel).st.pollSleeps = List.replicate n 2) ∧
    (runEval envTimeoutLast "/tmp/f.pdf" 5).result
      = some (.error "Evaluation failed: Failed to upload file after 3 attempts: File processing timed out after 30 seconds") ∧
    (runEval envNotActive "/tmp/f.pdf" 5).result = some (.error msgNA) ∧
    (runEval envLeak "/tmp/f.pdf" 5).st.timeouts = 1 ∧
    (runEval envLeak "/tmp/f.pdf" 5).st.u = 2 ∧
    (runEval envLeak "/tmp/f.pdf" 5).result = some (.ok "EVAL TEXT") := by
  refine ⟨?_, rfl, rfl, by decide, by decide, rfl⟩
  intro env path pollFuel
  exact (evaluate_invar env.fileExists env.uploads env.gets env.clock
    env.generate path pollFuel).2.2.1

end ProjectAssessment

namespace ProjectAssessment

/-- C4 counterexample: in the `envNotActive` run the remote file never
reaches the ACTIVE state (the evaluator raises its not-ACTIVE error,
recorded in `notActives`), yet the endpoint answers HTTP 500, not the
claimed 400: the substring needle "not in an ACTIVE state" does not occur
in the evaluator's own phrasing "... is not in ACTIVE state ...". -/
theorem C4_not_active_gets_500 :
    (runEval envNotActive "/tmp/f.pdf" 5).st.notActives = 1 ∧
    (runEval envNotActive "/tmp/f.pdf" 5).result = some (.error msgNA) ∧
    isFileStateErr msgNA = false ∧
    evaluate_document reqOK envNotActive "/tmp/f.pdf" 5
      = some (.err 500 ⟨"evaluation_failed", "Evaluation failed: " ++ msgNA,
              none, none, none, none, some "Step", some "Deliv"⟩) ∧
    500 ≠ 400 :=
  ⟨by decide, rfl, by decide, by decide, by decide⟩

/-- C4 (amended): every evaluator failure propagates to the endpoint,
which answers 400 exactly when the message contains
"FAILED_PRECONDITION" or the Gemini-API phrase "not in an ACTIVE state"
(replacing the message by a generic one) and 500 otherwise, the body
always carrying the machine-readable code `evaluation_failed` and a
human-readable message; in particular the evaluator's own
file-not-ACTIVE message does not match the needles and maps to 500. -/
theorem C4_status_mapping_amended :
    (∀ (r : UploadReq) (env : Env) (path : String) (pollFuel : Nat) (m : String),
       (validateRequest r).outcome = none →
       (runEval env path pollFuel).result = some (.error m) →
       evaluate_document r env path pollFuel
         = some (.err (evalFailureStatus m)
                      (evalFailureBody r.step_name r.deliverable_name m))) ∧
    (∀ m, isFileStateErr m = true → evalFailureStatus m = 400) ∧
    (∀ m, isFileStateErr m = false → evalFailureStatus m = 500) ∧
    (∀ s d m, (evalFailureBody s d m).error = "evaluation_failed" ∧
       (evalFailureBody s d m).message
         = "Evaluation failed: "
             ++ (if isFileStateErr m then genericEvalErrorMsg else m)) ∧
    isFileStateErr msgNA = false := by
  refine ⟨?_, ?_, ?_, ?_, by decide⟩
  · intro r env path pollFuel m hv hr
    simp [evaluate_document, hv, hr]
  · intro m hm
    simp [evalFailureStatus, hm]
  · intro m hm
    simp [evalFailureStatus, hm]
  · intro s d m
    exact ⟨rfl, rfl⟩

/-- Witness for C4 (amended) at the `envNotActive` run and two sample
messages. -/
theorem C4_status_mapping_amended_witness :
    evaluate_document reqOK envNotActive "/tmp/f.pdf" 5
      = some (.err (evalFailureStatus msgNA)
                   (evalFailureBody "Step" "Deliv" msgNA)) ∧
    evalFailureStatus "the file x is not in an ACTIVE state" = 400 ∧
    evalFailureStatus "quota exceeded" = 500 :=
  ⟨C4_status_mapping_amended.1 reqOK envNotActive "/tmp/f.pdf" 5 msgNA
     (by decide) rfl,
   C4_status_mapping_amended.2.1 "the file x is not in an ACTIVE state" (by decide),
   C4_status_mapping_amended.2.2.1 "quota exceeded" (by decide)⟩

/-- C8: a failing generation call surfaces as the GenerationFailed
wrapper carrying the underlying message and generation is never retried
(at most one generation call in any run); every exception raised inside
`evaluate` is wrapped into a single `Evaluation failed:` error carrying
the original message; and remote-delete outcomes can never mask the
primary result (the result is unchanged under any delete oracle). -/
theorem C8_error_wrapping :
    (∀ (env : Env) (path : String) (pollFuel : Nat),
       (runEval env path pollFuel).st.genCalls ≤ 1) ∧
    (∀ (env : Env) (path : String) (pollFuel : Nat) (h : Handle) (e : String),
       env.fileExists = true → env.uploads 0 = .ok h →
       h.state = some "ACTIVE" → env.generate = .error e →
       (runEval env path pollFuel).result
         = some (.error ("Evaluation failed: "
             ++ ("Content generation failed: " ++ e)))) ∧
    (∀ (env : Env) (path : String) (pollFuel : Nat) (m : String),
       (runEval env path pollFuel).result = some (.error m) →
       ∃ e, m = "Evaluation failed: " ++ e) ∧
    (∀ (env : Env) (f : Nat → Bool) (path : String) (pollFuel : Nat),
       (runEval { env with deleteOk := f } path pollFuel).result
         = (runEval env path pollFuel).result) := by
  refine ⟨?_, ?_, ?_, ?_⟩
  · intro env path pollFuel
    exact (evaluate_invar env.fileExists env.uploads env.gets env.clock
      env.generate path pollFuel).2.1
  · intro env path pollFuel h e hfe hup hact hgen
    have hal := attemptLoop_ok_now env.uploads env.gets env.clock pollFuel
      2 0 none St.init h hup hact
    have hb := evalBody_loopOk env.uploads env.gets env.clock env.generate
      path pollFuel _ h hal
    have hg : genStep env.generate h
        ({ St.init with u := St.init.u + 1, uploaded := St.init.uploaded ++ [h], t := St.init.t + 1 } : St)
        = ({ ({ St.init with u := St.init.u + 1, uploaded := St.init.uploaded ++ [h], t := St.init.t + 1 } : St) with genCalls := ({ St.init with u := St.init.u + 1, uploaded := St.init.uploaded ++ [h], t := St.init.t + 1 } : St).genCalls + 1 },
           .errored (some h) ("Content generation failed: " ++ e)) := by
      rw [hgen]; rfl
    have hb2 := hb.trans hg
    have hev := evaluate_errored true env.uploads env.gets env.clock env.generate
      path pollFuel _ (some h) ("Content generation failed: " ++ e) hb2
    unfold runEval
    rw [hfe, hev]
  · intro env path pollFuel m hm
    exact evaluate_err_shape env.fileExists env.uploads env.gets env.clock
      env.generate path pollFuel m hm
  · intro env f path pollFuel
    rfl

/-- Witness for C8 at the `envGenFail` run. -/
theorem C8_error_wrapping_witness :
    (runEval envGenFail "/tmp/a.pdf" 1).result
      = some (.error ("Evaluation failed: "
          ++ ("Content generation failed: " ++ "boom"))) ∧
    (∃ e, "Evaluation failed: Content generation failed: boom"
      = "Evaluation failed: " ++ e) ∧
    (runEval { envGenFail with deleteOk := fun _ => false } "/tmp/a.pdf" 1).result
      = (runEval envGenFail "/tmp/a.pdf" 1).result :=
  ⟨C8_error_wrapping.2.1 envGenFail "/tmp/a.pdf" 1
     ⟨some "files/g", some "ACTIVE"⟩ "boom" rfl rfl rfl rfl,
   C8_error_wrapping.2.2.1 envGenFail "/tmp/a.pdf" 1
     "Evaluation failed: Content generation failed: boom" rfl,
   C8_error_wrapping.2.2.2 envGenFail (fun _ => false) "/tmp/a.pdf" 1⟩

end ProjectAssessment
